import Mathlib

set_option maxRecDepth 100000

/-!
Verification model of the Optic Pulse AI orchestration service
(services/ai_service.py together with the output shapes of schemas/models.py).

The service owns three fixed prompt templates.  Each public operation renders
its template with caller-supplied values (Python str.format interpolation),
invokes the hosted model once with the rendered prompt, parses the textual
reply as JSON (json.loads), and validates the parsed object against a fixed
pydantic output shape.  The hosted model is an opaque collaborator: a call is
modelled as a function of the reply the model would return, and the trace
records the rendered prompt and the number of model invocations.
-/

namespace OpticPulse

/-- JSON values as produced by json.loads.  JSON numbers are modelled as
rationals; an integer-valued rational stands for both the JSON integer and the
fractionless JSON float, whose acceptance by the integer validator coincides. -/
inductive Json where
  | null
  | bool (b : Bool)
  | num (q : Rat)
  | str (s : String)
  | arr (elems : List Json)
  | obj (fields : List (String × Json))

def Json.isObj : Json → Bool
  | .obj _ => true
  | _ => false

/-- Lookup in the field list of a JSON object.  json.loads builds a Python
dict, where a later duplicate key overwrites an earlier one, so the last
binding wins. -/
def jget (fs : List (String × Json)) (k : String) : Option Json :=
  fs.foldl (fun acc p => if p.1 = k then some p.2 else acc) none

def digitChars (l : List Char) : Bool := l.all Char.isDigit

def digitsVal (l : List Char) : Nat :=
  l.foldl (fun a c => 10 * a + (c.toNat - 48)) 0

/-- Integer literal strings accepted by the integer coercion of the validation
library (pydantic lax mode): an optional sign followed by decimal digits. -/
def parseIntStr (s : String) : Option Int :=
  match s.data with
  | [] => none
  | c :: rest =>
    if c = '-' then
      if rest ≠ [] ∧ digitChars rest then some (-(digitsVal rest : Int)) else none
    else if c = '+' then
      if rest ≠ [] ∧ digitChars rest then some (digitsVal rest : Int) else none
    else
      if digitChars (c :: rest) then some (digitsVal (c :: rest) : Int) else none

def splitDot : List Char → List Char × Option (List Char)
  | [] => ([], none)
  | c :: rest =>
    if c = '.' then ([], some rest)
    else
      let p := splitDot rest
      (c :: p.1, p.2)

/-- Decimal literal strings accepted by the float coercion of the validation
library: optional sign, digits, optional fractional digits.  Exponent notation
and the special float spellings are not exercised by this repository and are
not modelled. -/
def parseDecStr (s : String) : Option Rat :=
  let core : List Char → Option Rat := fun l =>
    match splitDot l with
    | (ip, none) =>
      if ip ≠ [] ∧ digitChars ip then some ((digitsVal ip : Nat) : Rat) else none
    | (ip, some fp) =>
      if (ip ≠ [] ∨ fp ≠ []) ∧ digitChars ip ∧ digitChars fp then
        some ((digitsVal ip : Rat) + (digitsVal fp : Rat) / ((10 : Rat) ^ fp.length))
      else none
  match s.data with
  | [] => none
  | c :: rest =>
    if c = '-' then (core rest).map (fun q => -q)
    else if c = '+' then core rest
    else core (c :: rest)

/-- Pydantic str field: only a JSON string is accepted (numbers are not
stringified). -/
def Json.asStr : Json → Option String
  | .str s => some s
  | _ => none

/-- Pydantic float field: any JSON number, or a numeric string (lax
coercion). -/
def Json.asFloat : Json → Option Rat
  | .num q => some q
  | .str s => parseDecStr s
  | _ => none

/-- Pydantic int field: an integer-valued JSON number, or an integer literal
string (lax coercion).  A fractional number is rejected. -/
def Json.asInt : Json → Option Int
  | .num q => if q.den = 1 then some q.num else none
  | .str s => parseIntStr s
  | _ => none

/-- Elementwise validation of a JSON array against List[str]: every element
must be a string. -/
def strListOf : List Json → Option (List String)
  | [] => some []
  | j :: rest =>
    match Json.asStr j, strListOf rest with
    | some s, some t => some (s :: t)
    | _, _ => none

/-- Pydantic List[str] field: a JSON array whose every element is a string. -/
def Json.asStrList : Json → Option (List String)
  | .arr es => strListOf es
  | _ => none

/-- Pydantic Dict[str, Any] field: any JSON object. -/
def Json.asObjVal : Json → Option (List (String × Json))
  | .obj fs => some fs
  | _ => none

/-- Field(..., ge=0, le=100) on predicted_score: integer coercion followed by
the range check; an out-of-range value is rejected, never clamped. -/
def Json.asScore (j : Json) : Option Int :=
  match j.asInt with
  | some n => if 0 ≤ n ∧ n ≤ 100 then some n else none
  | none => none

/-- Extract-and-coerce one declared field; extra fields are never consulted
(pydantic default config ignores extras). -/
def fieldConv {α : Type} (fs : List (String × Json)) (name : String)
    (conv : Json → Option α) : Option α :=
  (jget fs name).bind conv

/-- Name of a field whose extraction failed, for the validation error list. -/
def errTag {α : Type} (o : Option α) (name : String) : List String :=
  match o with
  | some _ => []
  | none => [name]

structure VibeReportOutput where
  shopping_persona : String
  key_behavioral_metrics : List (String × Json)
  key_purchase_metrics : List (String × Json)
  color_palette_hints : List String

structure BrandVoiceOutput where
  tone : String
  emoji_density : Rat
  cta_style : String
  body_style : String
  predicted_score : Int
  new_campaign_body : String

structure SmartReceiptOutput where
  next_best_item : String
  loyalty_incentive_text : String
  coupons : List String

/-- VibeReportOutput(**fields): every declared field is mandatory; a failed
validation reports the offending field names in declaration order, as the
pydantic ValidationError does. -/
def VibeReportOutput.validate (fs : List (String × Json)) :
    Except (List String) VibeReportOutput :=
  match fieldConv fs "shopping_persona" Json.asStr,
        fieldConv fs "key_behavioral_metrics" Json.asObjVal,
        fieldConv fs "key_purchase_metrics" Json.asObjVal,
        fieldConv fs "color_palette_hints" Json.asStrList with
  | some a, some b, some c, some d => .ok ⟨a, b, c, d⟩
  | o1, o2, o3, o4 =>
    .error (errTag o1 "shopping_persona" ++ errTag o2 "key_behavioral_metrics" ++
            errTag o3 "key_purchase_metrics" ++ errTag o4 "color_palette_hints")

/-- BrandVoiceOutput(**fields), with the 0-100 bounds check on
predicted_score. -/
def BrandVoiceOutput.validate (fs : List (String × Json)) :
    Except (List String) BrandVoiceOutput :=
  match fieldConv fs "tone" Json.asStr,
        fieldConv fs "emoji_density" Json.asFloat,
        fieldConv fs "cta_style" Json.asStr,
        fieldConv fs "body_style" Json.asStr,
        fieldConv fs "predicted_score" Json.asScore,
        fieldConv fs "new_campaign_body" Json.asStr with
  | some a, some b, some c, some d, some e, some f => .ok ⟨a, b, c, d, e, f⟩
  | o1, o2, o3, o4, o5, o6 =>
    .error (errTag o1 "tone" ++ errTag o2 "emoji_density" ++ errTag o3 "cta_style" ++
            errTag o4 "body_style" ++ errTag o5 "predicted_score" ++
            errTag o6 "new_campaign_body")

/-- SmartReceiptOutput(**fields). -/
def SmartReceiptOutput.validate (fs : List (String × Json)) :
    Except (List String) SmartReceiptOutput :=
  match fieldConv fs "next_best_item" Json.asStr,
        fieldConv fs "loyalty_incentive_text" Json.asStr,
        fieldConv fs "coupons" Json.asStrList with
  | some a, some b, some c => .ok ⟨a, b, c⟩
  | o1, o2, o3 =>
    .error (errTag o1 "next_best_item" ++ errTag o2 "loyalty_incentive_text" ++
            errTag o3 "coupons")

/-- Reads a str.format placeholder name up to the closing brace; none when the
template ends before a closing brace is found. -/
def takeVarName : List Char → Option (List Char × List Char)
  | [] => none
  | c :: rest =>
    if c = '\x7d' then some ([], rest)
    else (takeVarName rest).map (fun p => (c :: p.1, p.2))

def lookupStr : List (String × String) → String → Option String
  | [], _ => none
  | p :: rest, k => if p.1 = k then some p.2 else lookupStr rest k

/-- One step of Python str.format interpolation, as PromptTemplate.format runs
it on the f-string template: doubled braces are literal braces, a braced name
is replaced by its supplied value (a missing value is the KeyError carrying
the name), and a stray single brace is the ValueError of the formatter.  The
fuel argument only bounds the recursion; pyFormat supplies enough. -/
def fmtAux : Nat → List Char → List (String × String) → Except String (List Char)
  | 0, _, _ => .error "fuel exhausted"
  | _ + 1, [], _ => .ok []
  | fuel + 1, c :: rest, vs =>
    if c = '\x7b' then
      match rest with
      | c2 :: rest2 =>
        if c2 = '\x7b' then (fmtAux fuel rest2 vs).map (fun l => c :: l)
        else
          match takeVarName rest with
          | none => .error "Single open brace encountered"
          | some (name, rem) =>
            match lookupStr vs (String.mk name) with
            | none => .error (String.mk name)
            | some v => (fmtAux fuel rem vs).map (fun l => v.data ++ l)
      | [] => .error "Single open brace encountered"
    else if c = '\x7d' then
      match rest with
      | c2 :: rest2 =>
        if c2 = '\x7d' then (fmtAux fuel rest2 vs).map (fun l => c :: l)
        else .error "Single closing brace encountered"
      | [] => .error "Single closing brace encountered"
    else
      (fmtAux fuel rest vs).map (fun l => c :: l)

/-- prompt.format(**input_data): renders the template, failing before any
network activity when a placeholder has no supplied value. -/
def pyFormat (template : String) (vs : List (String × String)) :
    Except String String :=
  (fmtAux (template.length + 1) template.data vs).map String.mk

/-- The Python str() rendering of a string-keyed, string-valued dict, as used
for past_purchase_patterns: single-quoted keys and values, comma-space
separated, inside braces. -/
def pyStrOfDict (d : List (String × String)) : String :=
  "\x7b" ++
    String.intercalate ", "
      (d.map (fun kv => "\x27" ++ kv.1 ++ "\x27: \x27" ++ kv.2 ++ "\x27")) ++
  "\x7d"

/-- The errors an orchestration call can raise, as the except-and-reraise
blocks of _call_ai_model propagate them:
inputError is the KeyError of str.format on a missing placeholder value;
parseError is the json.loads JSONDecodeError on a reply that is not valid
JSON, carrying the raw reply text;
validationError is the pydantic ValidationError, carrying the offending field
names and (in the logged error context) the raw reply text;
typeError is the TypeError of applying the record constructor via ** to a
parsed reply that is not a JSON object. -/
inductive CallError where
  | inputError (key : String)
  | parseError (raw : String)
  | validationError (fields : List String) (raw : String)
  | typeError (raw : String)

/-- A hosted-model reply as _call_ai_model sees it: the raw text content and
the outcome of json.loads on it (none when json.loads raises).  The parser
itself is the Python standard library and is not re-implemented here. -/
structure Reply where
  content : String
  parsed : Option Json

/-- Observable record of one orchestration call: the prompt sent (none when
formatting failed), the number of model invocations, and the returned value
or propagated error. -/
structure CallTrace (α : Type) where
  promptSent : Option String
  calls : Nat
  result : Except CallError α

def CallError.isInput : CallError → Bool
  | .inputError _ => true
  | _ => false

def CallError.isParse : CallError → Bool
  | .parseError _ => true
  | _ => false

def CallError.isValidation : CallError → Bool
  | .validationError _ _ => true
  | _ => false

def CallError.isType : CallError → Bool
  | .typeError _ => true
  | _ => false

/-- The post-invocation half of AIService._call_ai_model: json.loads the reply
content, then build the output model from the parsed value via the **
constructor call.  A reply that is not valid JSON is the parse error; a parsed
value that is not a JSON object is the TypeError of the ** application; a
failed pydantic validation carries the offending field names and the raw
reply. -/
def parseAndValidate {α : Type}
    (validate : List (String × Json) → Except (List String) α) (reply : Reply) :
    Except CallError α :=
  match reply.parsed with
  | none => .error (.parseError reply.content)
  | some (.obj fs) =>
    match validate fs with
    | .ok r => .ok r
    | .error names => .error (.validationError names reply.content)
  | some _ => .error (.typeError reply.content)

/-- AIService._call_ai_model: format the template with the input data, invoke
the model once, json.loads the reply content, and build the output model from
the parsed object.  Every failure propagates to the caller unchanged; there is
no retry, fallback, or partial result. -/
def callAiModel {α : Type} (template : String) (input_data : List (String × String))
    (validate : List (String × Json) → Except (List String) α) (reply : Reply) :
    CallTrace α :=
  match pyFormat template input_data with
  | .error key => ⟨none, 0, .error (.inputError key)⟩
  | .ok p => ⟨some p, 1, parseAndValidate validate reply⟩

def vibeTemplate : String :=
  "\n            Analyze the following 12-month transaction summary for a customer to generate a Vibe Report.\n            Identify their shopping persona, key behavioral metrics, key purchase metrics, and suggest a color palette.\n\n            Transaction Summary:\n            \x7btransaction_summary\x7d\n\n            Output must be a JSON object with the following keys:\n            - shopping_persona (string, e.g., \"Family Man\", \"Green Flag\", \"Tech Enthusiast\")\n            - key_behavioral_metrics (dictionary, e.g., \x7b\x7b\"avg_items_per_purchase\": 3, \"return_rate\": 0.05\x7d\x7d)\n            - key_purchase_metrics (dictionary, e.g., \x7b\x7b\"total_spend\": 1200.50, \"most_bought_category\": \"Apparel\"\x7d\x7d)\n            - color_palette_hints (list of strings, e.g., [\"#FFD700\", \"#FF6347\", \"#6A5ACD\"])\n            "

def vibePre : String :=
  "\n            Analyze the following 12-month transaction summary for a customer to generate a Vibe Report.\n            Identify their shopping persona, key behavioral metrics, key purchase metrics, and suggest a color palette.\n\n            Transaction Summary:\n            "

def vibeSuf : String :=
  "\n\n            Output must be a JSON object with the following keys:\n            - shopping_persona (string, e.g., \"Family Man\", \"Green Flag\", \"Tech Enthusiast\")\n            - key_behavioral_metrics (dictionary, e.g., \x7b\"avg_items_per_purchase\": 3, \"return_rate\": 0.05\x7d)\n            - key_purchase_metrics (dictionary, e.g., \x7b\"total_spend\": 1200.50, \"most_bought_category\": \"Apparel\"\x7d)\n            - color_palette_hints (list of strings, e.g., [\"#FFD700\", \"#FF6347\", \"#6A5ACD\"])\n            "

def brandTemplate : String :=
  "\n            Analyze the following 10 past campaign texts to extract the brand\x27s tone, emoji density, CTA style, and body style.\n            Then, generate a new campaign body text based on these characteristics and predict its success score (0-100).\n\n            Past Campaign Texts:\n            \x7bcampaign_texts\x7d\n\n            Output must be a JSON object with the following keys:\n            - tone (string, e.g., \"playful\", \"authoritative\", \"friendly\")\n            - emoji_density (float, percentage of emojis per word)\n            - cta_style (string, e.g., \"urgent\", \"informative\", \"subtle\")\n            - body_style (string, e.g., \"short paragraphs\", \"bullet points\", \"storytelling\")\n            - predicted_score (integer, 0-100, based on \x27sent\x27, \x27read\x27, \x27unsent\x27 patterns)\n            - new_campaign_body (string, the generated text)\n            "

def brandPre : String :=
  "\n            Analyze the following 10 past campaign texts to extract the brand\x27s tone, emoji density, CTA style, and body style.\n            Then, generate a new campaign body text based on these characteristics and predict its success score (0-100).\n\n            Past Campaign Texts:\n            "

def brandSuf : String :=
  "\n\n            Output must be a JSON object with the following keys:\n            - tone (string, e.g., \"playful\", \"authoritative\", \"friendly\")\n            - emoji_density (float, percentage of emojis per word)\n            - cta_style (string, e.g., \"urgent\", \"informative\", \"subtle\")\n            - body_style (string, e.g., \"short paragraphs\", \"bullet points\", \"storytelling\")\n            - predicted_score (integer, 0-100, based on \x27sent\x27, \x27read\x27, \x27unsent\x27 patterns)\n            - new_campaign_body (string, the generated text)\n            "

def receiptTemplate : String :=
  "\n            Based on the customer\x27s current basket items and past purchase patterns,\n            recommend the next best item, provide a loyalty incentive text, and suggest relevant coupons.\n\n            Current Basket Items:\n            \x7bcurrent_basket_items\x7d\n\n            Past Purchase Patterns:\n            \x7bpast_purchase_patterns\x7d\n\n            Output must be a JSON object with the following keys:\n            - next_best_item (string, name of the recommended product)\n            - loyalty_incentive_text (string, e.g., \"Earn double points on your next purchase!\")\n            - coupons (list of strings, e.g., [\"10% off next coffee\", \"Free delivery on orders over $50\"])\n            "

def receiptPre : String :=
  "\n            Based on the customer\x27s current basket items and past purchase patterns,\n            recommend the next best item, provide a loyalty incentive text, and suggest relevant coupons.\n\n            Current Basket Items:\n            "

def receiptMid : String :=
  "\n\n            Past Purchase Patterns:\n            "

def receiptSuf : String :=
  "\n\n            Output must be a JSON object with the following keys:\n            - next_best_item (string, name of the recommended product)\n            - loyalty_incentive_text (string, e.g., \"Earn double points on your next purchase!\")\n            - coupons (list of strings, e.g., [\"10% off next coffee\", \"Free delivery on orders over $50\"])\n            "

/-- The state AIService.__init__ builds once: the hosted-endpoint handle (model
identifier gpt-4o, sampling temperature 0.2) and the three prompt templates.
No method ever reassigns any of these. -/
structure AIService where
  llm_model : String
  temperature : Rat
  vibe_profiler_prompt : String
  brand_voice_cloner_prompt : String
  smart_receipt_recommender_prompt : String

def AIService.init : AIService :=
  ⟨"gpt-4o", 1 / 5, vibeTemplate, brandTemplate, receiptTemplate⟩

/-- AIService.get_vibe_report: the summary string is substituted verbatim.  The
service value is threaded through and returned so that the absence of state
mutation is part of the statement, matching the method body, which only reads
self. -/
def AIService.get_vibe_report (s : AIService) (transaction_summary : String)
    (reply : Reply) : CallTrace VibeReportOutput × AIService :=
  (callAiModel s.vibe_profiler_prompt
    [("transaction_summary", transaction_summary)]
    VibeReportOutput.validate reply, s)

/-- AIService.clone_brand_voice: the campaign texts are newline-joined for the
prompt. -/
def AIService.clone_brand_voice (s : AIService) (campaign_texts : List String)
    (reply : Reply) : CallTrace BrandVoiceOutput × AIService :=
  (callAiModel s.brand_voice_cloner_prompt
    [("campaign_texts", String.intercalate "\n" campaign_texts)]
    BrandVoiceOutput.validate reply, s)

/-- AIService.get_smart_receipt_recommendations: basket items are joined with
a comma and space, and the patterns mapping is rendered with str(). -/
def AIService.get_smart_receipt_recommendations (s : AIService)
    (current_basket_items : List String)
    (past_purchase_patterns : List (String × String))
    (reply : Reply) : CallTrace SmartReceiptOutput × AIService :=
  (callAiModel s.smart_receipt_recommender_prompt
    [("current_basket_items", String.intercalate ", " current_basket_items),
     ("past_purchase_patterns", pyStrOfDict past_purchase_patterns)]
    SmartReceiptOutput.validate reply, s)

/-! Helper lemmas. -/

theorem pyFormat_vibe (v : String) :
    pyFormat vibeTemplate [("transaction_summary", v)] =
      .ok (vibePre ++ v ++ vibeSuf) := rfl

theorem pyFormat_brand (v : String) :
    pyFormat brandTemplate [("campaign_texts", v)] =
      .ok (brandPre ++ v ++ brandSuf) := rfl

theorem pyFormat_receipt (b p : String) :
    pyFormat receiptTemplate
      [("current_basket_items", b), ("past_purchase_patterns", p)] =
      .ok (receiptPre ++ (b ++ (receiptMid ++ (p ++ receiptSuf)))) := rfl

theorem get_vibe_report_result (summary : String) (reply : Reply) :
    (AIService.init.get_vibe_report summary reply).1.result =
      parseAndValidate VibeReportOutput.validate reply := rfl

theorem clone_brand_voice_result (texts : List String) (reply : Reply) :
    (AIService.init.clone_brand_voice texts reply).1.result =
      parseAndValidate BrandVoiceOutput.validate reply := rfl

theorem get_smart_receipt_result (basket : List String)
    (patterns : List (String × String)) (reply : Reply) :
    (AIService.init.get_smart_receipt_recommendations basket patterns reply).1.result =
      parseAndValidate SmartReceiptOutput.validate reply := rfl

theorem strListOf_map_str (l : List String) :
    strListOf (l.map Json.str) = some l := by
  induction l with
  | nil => rfl
  | cons a t ih => simp [strListOf, Json.asStr, ih]

theorem vibe_validate_ok (fs : List (String × Json)) (persona : String)
    (kbm kpm : List (String × Json)) (hints : List String)
    (h1 : jget fs "shopping_persona" = some (.str persona))
    (h2 : jget fs "key_behavioral_metrics" = some (.obj kbm))
    (h3 : jget fs "key_purchase_metrics" = some (.obj kpm))
    (h4 : jget fs "color_palette_hints" = some (.arr (hints.map Json.str))) :
    VibeReportOutput.validate fs = .ok ⟨persona, kbm, kpm, hints⟩ := by
  unfold VibeReportOutput.validate
  simp only [fieldConv, h1, h2, h3, h4, Option.some_bind, Json.asStr, Json.asObjVal,
    Json.asStrList, strListOf_map_str]

theorem brand_validate_ok (fs : List (String × Json)) (tone : String) (ed : Rat)
    (cta body : String) (score : Int) (ncb : String)
    (h1 : jget fs "tone" = some (.str tone))
    (h2 : jget fs "emoji_density" = some (.num ed))
    (h3 : jget fs "cta_style" = some (.str cta))
    (h4 : jget fs "body_style" = some (.str body))
    (h5 : jget fs "predicted_score" = some (.num (score : Rat)))
    (hlo : 0 ≤ score) (hhi : score ≤ 100)
    (h6 : jget fs "new_campaign_body" = some (.str ncb)) :
    BrandVoiceOutput.validate fs = .ok ⟨tone, ed, cta, body, score, ncb⟩ := by
  unfold BrandVoiceOutput.validate
  simp [fieldConv, h1, h2, h3, h4, h5, h6, Json.asStr, Json.asFloat, Json.asScore,
    Json.asInt, hlo, hhi]

theorem receipt_validate_ok (fs : List (String × Json)) (nbi lit : String)
    (coupons : List String)
    (h1 : jget fs "next_best_item" = some (.str nbi))
    (h2 : jget fs "loyalty_incentive_text" = some (.str lit))
    (h3 : jget fs "coupons" = some (.arr (coupons.map Json.str))) :
    SmartReceiptOutput.validate fs = .ok ⟨nbi, lit, coupons⟩ := by
  unfold SmartReceiptOutput.validate
  simp only [fieldConv, h1, h2, h3, Option.some_bind, Json.asStr, Json.asStrList,
    strListOf_map_str]

theorem vibe_validate_error_ne_nil (fs : List (String × Json)) (names : List String)
    (h : VibeReportOutput.validate fs = .error names) : names ≠ [] := by
  unfold VibeReportOutput.validate at h
  cases e1 : fieldConv fs "shopping_persona" Json.asStr <;>
    cases e2 : fieldConv fs "key_behavioral_metrics" Json.asObjVal <;>
      cases e3 : fieldConv fs "key_purchase_metrics" Json.asObjVal <;>
        cases e4 : fieldConv fs "color_palette_hints" Json.asStrList <;>
          simp only [e1, e2, e3, e4, errTag, Except.error.injEq] at h <;>
            (intro hn; rw [hn] at h; simp at h)

theorem brand_validate_error_ne_nil (fs : List (String × Json)) (names : List String)
    (h : BrandVoiceOutput.validate fs = .error names) : names ≠ [] := by
  unfold BrandVoiceOutput.validate at h
  cases e1 : fieldConv fs "tone" Json.asStr <;>
    cases e2 : fieldConv fs "emoji_density" Json.asFloat <;>
      cases e3 : fieldConv fs "cta_style" Json.asStr <;>
        cases e4 : fieldConv fs "body_style" Json.asStr <;>
          cases e5 : fieldConv fs "predicted_score" Json.asScore <;>
            cases e6 : fieldConv fs "new_campaign_body" Json.asStr <;>
              simp only [e1, e2, e3, e4, e5, e6, errTag, Except.error.injEq] at h <;>
                (intro hn; rw [hn] at h; simp at h)

theorem receipt_validate_error_ne_nil (fs : List (String × Json)) (names : List String)
    (h : SmartReceiptOutput.validate fs = .error names) : names ≠ [] := by
  unfold SmartReceiptOutput.validate at h
  cases e1 : fieldConv fs "next_best_item" Json.asStr <;>
    cases e2 : fieldConv fs "loyalty_incentive_text" Json.asStr <;>
      cases e3 : fieldConv fs "coupons" Json.asStrList <;>
        simp only [e1, e2, e3, errTag, Except.error.injEq] at h <;>
          (intro hn; rw [hn] at h; simp at h)

theorem jget_append_of_not_mem (fs extras : List (String × Json)) (k : String)
    (h : ∀ p ∈ extras, p.1 ≠ k) : jget (fs ++ extras) k = jget fs k := by
  unfold jget
  rw [List.foldl_append]
  induction extras generalizing fs with
  | nil => rfl
  | cons p t ih =>
    have hp : p.1 ≠ k := h p (by simp)
    simp only [List.foldl_cons, if_neg hp]
    exact ih fs (fun q hq => h q (by simp [hq]))

theorem fieldConv_append {α : Type} (fs extras : List (String × Json)) (k : String)
    (conv : Json → Option α) (h : ∀ p ∈ extras, p.1 ≠ k) :
    fieldConv (fs ++ extras) k conv = fieldConv fs k conv := by
  unfold fieldConv
  rw [jget_append_of_not_mem fs extras k h]

/-- The declared field names of VibeReportOutput. -/
def vibeFields : List String :=
  ["shopping_persona", "key_behavioral_metrics", "key_purchase_metrics",
   "color_palette_hints"]

/-- The declared field names of BrandVoiceOutput. -/
def brandFields : List String :=
  ["tone", "emoji_density", "cta_style", "body_style", "predicted_score",
   "new_campaign_body"]

/-- The declared field names of SmartReceiptOutput. -/
def receiptFields : List String :=
  ["next_best_item", "loyalty_incentive_text", "coupons"]

theorem vibe_validate_append (fs extras : List (String × Json))
    (h : ∀ p ∈ extras, p.1 ∉ vibeFields) :
    VibeReportOutput.validate (fs ++ extras) = VibeReportOutput.validate fs := by
  unfold VibeReportOutput.validate
  rw [fieldConv_append fs extras "shopping_persona" _
        (fun p hp hk => h p hp (by simp [vibeFields, hk])),
      fieldConv_append fs extras "key_behavioral_metrics" _
        (fun p hp hk => h p hp (by simp [vibeFields, hk])),
      fieldConv_append fs extras "key_purchase_metrics" _
        (fun p hp hk => h p hp (by simp [vibeFields, hk])),
      fieldConv_append fs extras "color_palette_hints" _
        (fun p hp hk => h p hp (by simp [vibeFields, hk]))]

theorem brand_validate_append (fs extras : List (String × Json))
    (h : ∀ p ∈ extras, p.1 ∉ brandFields) :
    BrandVoiceOutput.validate (fs ++ extras) = BrandVoiceOutput.validate fs := by
  unfold BrandVoiceOutput.validate
  rw [fieldConv_append fs extras "tone" _
        (fun p hp hk => h p hp (by simp [brandFields, hk])),
      fieldConv_append fs extras "emoji_density" _
        (fun p hp hk => h p hp (by simp [brandFields, hk])),
      fieldConv_append fs extras "cta_style" _
        (fun p hp hk => h p hp (by simp [brandFields, hk])),
      fieldConv_append fs extras "body_style" _
        (fun p hp hk => h p hp (by simp [brandFields, hk])),
      fieldConv_append fs extras "predicted_score" _
        (fun p hp hk => h p hp (by simp [brandFields, hk])),
      fieldConv_append fs extras "new_campaign_body" _
        (fun p hp hk => h p hp (by simp [brandFields, hk]))]

theorem receipt_validate_append (fs extras : List (String × Json))
    (h : ∀ p ∈ extras, p.1 ∉ receiptFields) :
    SmartReceiptOutput.validate (fs ++ extras) = SmartReceiptOutput.validate fs := by
  unfold SmartReceiptOutput.validate
  rw [fieldConv_append fs extras "next_best_item" _
        (fun p hp hk => h p hp (by simp [receiptFields, hk])),
      fieldConv_append fs extras "loyalty_incentive_text" _
        (fun p hp hk => h p hp (by simp [receiptFields, hk])),
      fieldConv_append fs extras "coupons" _
        (fun p hp hk => h p hp (by simp [receiptFields, hk]))]

/-! Claim theorems. -/

/-- C1: for each of the three operations, a model reply that parses as a JSON
object containing every required field of the output shape with a value of the
declared type yields a record whose fields equal the corresponding JSON
values, unmodified; in particular, the smart-receipt end-to-end example with
basket Organic Coffee Beans and Almond Milk, the Beverages/EcoBrew patterns,
and the Oat Milk reply returns exactly those three field values. -/
theorem C1_wellformed_reply_returned_unmodified :
    (∀ (content summary persona : String) (fs kbm kpm : List (String × Json))
       (hints : List String),
       jget fs "shopping_persona" = some (.str persona) →
       jget fs "key_behavioral_metrics" = some (.obj kbm) →
       jget fs "key_purchase_metrics" = some (.obj kpm) →
       jget fs "color_palette_hints" = some (.arr (hints.map Json.str)) →
       (AIService.init.get_vibe_report summary ⟨content, some (.obj fs)⟩).1.result =
         .ok ⟨persona, kbm, kpm, hints⟩) ∧
    (∀ (content : String) (texts : List String) (fs : List (String × Json))
       (tone : String) (ed : Rat) (cta body : String) (score : Int) (ncb : String),
       jget fs "tone" = some (.str tone) →
       jget fs "emoji_density" = some (.num ed) →
       jget fs "cta_style" = some (.str cta) →
       jget fs "body_style" = some (.str body) →
       jget fs "predicted_score" = some (.num (score : Rat)) →
       0 ≤ score → score ≤ 100 →
       jget fs "new_campaign_body" = some (.str ncb) →
       (AIService.init.clone_brand_voice texts ⟨content, some (.obj fs)⟩).1.result =
         .ok ⟨tone, ed, cta, body, score, ncb⟩) ∧
    (∀ (content : String) (basket : List String) (patterns : List (String × String))
       (fs : List (String × Json)) (nbi lit : String) (coupons : List String),
       jget fs "next_best_item" = some (.str nbi) →
       jget fs "loyalty_incentive_text" = some (.str lit) →
       jget fs "coupons" = some (.arr (coupons.map Json.str)) →
       (AIService.init.get_smart_receipt_recommendations basket patterns
          ⟨content, some (.obj fs)⟩).1.result = .ok ⟨nbi, lit, coupons⟩) ∧
    (AIService.init.get_smart_receipt_recommendations
        ["Organic Coffee Beans", "Almond Milk"]
        [("last_purchase_category", "Beverages"), ("favorite_brand", "EcoBrew")]
        ⟨"\x7b\"next_best_item\": \"Oat Milk\", \"loyalty_incentive_text\": \"Earn double points!\", \"coupons\": [\"10% off coffee\"]\x7d",
         some (.obj
           [("next_best_item", .str "Oat Milk"),
            ("loyalty_incentive_text", .str "Earn double points!"),
            ("coupons", .arr [.str "10% off coffee"])])⟩).1.result =
      .ok ⟨"Oat Milk", "Earn double points!", ["10% off coffee"]⟩ := by
  refine ⟨?_, ?_, ?_, ?_⟩
  · intro content summary persona fs kbm kpm hints h1 h2 h3 h4
    rw [get_vibe_report_result]
    simp [parseAndValidate, vibe_validate_ok fs persona kbm kpm hints h1 h2 h3 h4]
  · intro content texts fs tone ed cta body score ncb h1 h2 h3 h4 h5 hlo hhi h6
    rw [clone_brand_voice_result]
    simp [parseAndValidate,
      brand_validate_ok fs tone ed cta body score ncb h1 h2 h3 h4 h5 hlo hhi h6]
  · intro content basket patterns fs nbi lit coupons h1 h2 h3
    rw [get_smart_receipt_result]
    simp [parseAndValidate, receipt_validate_ok fs nbi lit coupons h1 h2 h3]
  · rfl

/-- Witness for C1: concrete instances of the three universally quantified
conjuncts, with every hypothesis discharged by rfl or decide. -/
theorem C1_wellformed_reply_witness :
    (AIService.init.get_vibe_report "12-month summary"
       ⟨"rawv", some (.obj
         [("shopping_persona", .str "Green Flag"),
          ("key_behavioral_metrics", .obj [("return_rate", .num 1)]),
          ("key_purchase_metrics", .obj []),
          ("color_palette_hints", .arr [.str "#FFD700"])])⟩).1.result =
      .ok ⟨"Green Flag", [("return_rate", .num 1)], [], ["#FFD700"]⟩ ∧
    (AIService.init.clone_brand_voice ["c1", "c2"]
       ⟨"rawb", some (.obj
         [("tone", .str "playful"),
          ("emoji_density", .num 2),
          ("cta_style", .str "urgent"),
          ("body_style", .str "storytelling"),
          ("predicted_score", .num ((87 : Int) : Rat)),
          ("new_campaign_body", .str "New!")])⟩).1.result =
      .ok ⟨"playful", 2, "urgent", "storytelling", 87, "New!"⟩ ∧
    (AIService.init.get_smart_receipt_recommendations ["Tea"] [("a", "b")]
       ⟨"rawr", some (.obj
         [("next_best_item", .str "Honey"),
          ("loyalty_incentive_text", .str "Points!"),
          ("coupons", .arr [.str "5% off"])])⟩).1.result =
      .ok ⟨"Honey", "Points!", ["5% off"]⟩ :=
  ⟨C1_wellformed_reply_returned_unmodified.1 "rawv" "12-month summary" "Green Flag"
      _ [("return_rate", .num 1)] [] ["#FFD700"] rfl rfl rfl rfl,
   C1_wellformed_reply_returned_unmodified.2.1 "rawb" ["c1", "c2"] _ "playful" 2
      "urgent" "storytelling" 87 "New!" rfl rfl rfl rfl rfl (by decide) (by decide) rfl,
   C1_wellformed_reply_returned_unmodified.2.2.1 "rawr" ["Tea"] [("a", "b")] _
      "Honey" "Points!" ["5% off"] rfl rfl rfl⟩

/-- C3: a model reply that is a JSON object with all BrandVoiceOutput fields
present and well-typed but with predicted_score outside the inclusive 0-100
range makes clone_brand_voice fail with the validation error naming
predicted_score; the value is never clamped and no record is returned. -/
theorem C3_out_of_range_score_rejected :
    ∀ (content : String) (texts : List String) (fs : List (String × Json))
      (tone : String) (ed : Rat) (cta body : String) (score : Int) (ncb : String),
      jget fs "tone" = some (.str tone) →
      jget fs "emoji_density" = some (.num ed) →
      jget fs "cta_style" = some (.str cta) →
      jget fs "body_style" = some (.str body) →
      jget fs "predicted_score" = some (.num (score : Rat)) →
      score < 0 ∨ 100 < score →
      jget fs "new_campaign_body" = some (.str ncb) →
      (AIService.init.clone_brand_voice texts ⟨content, some (.obj fs)⟩).1.result =
        .error (.validationError ["predicted_score"] content) := by
  intro content texts fs tone ed cta body score ncb h1 h2 h3 h4 h5 hrange h6
  have hsc : Json.asScore (.num (score : Rat)) = none := by
    simp only [Json.asScore, Json.asInt, Rat.den_intCast, Rat.num_intCast, reduceIte]
    rw [if_neg (by omega)]
  have hv : BrandVoiceOutput.validate fs = .error ["predicted_score"] := by
    unfold BrandVoiceOutput.validate
    simp [fieldConv, h1, h2, h3, h4, h5, h6, Json.asStr, Json.asFloat, hsc, errTag]
  rw [clone_brand_voice_result]
  simp [parseAndValidate, hv]

/-- Witness for C3 at the predicted_score value 150 the spec uses. -/
theorem C3_out_of_range_score_witness :
    (AIService.init.clone_brand_voice ["c"]
       ⟨"rawc3", some (.obj
         [("tone", .str "playful"),
          ("emoji_density", .num 2),
          ("cta_style", .str "urgent"),
          ("body_style", .str "short paragraphs"),
          ("predicted_score", .num ((150 : Int) : Rat)),
          ("new_campaign_body", .str "New!")])⟩).1.result =
      .error (.validationError ["predicted_score"] "rawc3") :=
  C3_out_of_range_score_rejected "rawc3" ["c"] _ "playful" 2 "urgent"
    "short paragraphs" 150 "New!" rfl rfl rfl rfl rfl (by decide) rfl

/-- C2 counterexample: clone_brand_voice called with an empty campaign_texts
list does not fail before the model call — the model is invoked exactly once,
not zero times, and with a well-formed stub reply the call even succeeds, so
no InputError is raised for an empty required input. -/
theorem C2_counterexample_empty_input_invokes_model :
    (AIService.init.clone_brand_voice []
       ⟨"rawc2", some (.obj
         [("tone", .str "friendly"),
          ("emoji_density", .num 1),
          ("cta_style", .str "subtle"),
          ("body_style", .str "bullet points"),
          ("predicted_score", .num ((60 : Int) : Rat)),
          ("new_campaign_body", .str "Body")])⟩).1.calls = 1 ∧
    (AIService.init.clone_brand_voice []
       ⟨"rawc2", some (.obj
         [("tone", .str "friendly"),
          ("emoji_density", .num 1),
          ("cta_style", .str "subtle"),
          ("body_style", .str "bullet points"),
          ("predicted_score", .num ((60 : Int) : Rat)),
          ("new_campaign_body", .str "Body")])⟩).1.result =
      .ok ⟨"friendly", 1, "subtle", "bullet points", 60, "Body"⟩ := ⟨rfl, rfl⟩

/-- C2 (amended): an empty required input is not rejected — it renders into the
template as empty text and the model is still invoked exactly once.  The only
failure before any model call is a template placeholder with no supplied value
at the shared helper, which raises the key error naming the placeholder with
zero model invocations; the three public operations always supply their
placeholders, so that path is unreachable through them. -/
theorem C2_empty_inputs_still_invoke_model :
    (∀ reply : Reply,
       (AIService.init.clone_brand_voice [] reply).1.calls = 1 ∧
       (AIService.init.clone_brand_voice [] reply).1.promptSent =
         some (brandPre ++ "" ++ brandSuf)) ∧
    (∀ reply : Reply,
       (AIService.init.get_vibe_report "" reply).1.calls = 1 ∧
       (AIService.init.get_vibe_report "" reply).1.promptSent =
         some (vibePre ++ "" ++ vibeSuf)) ∧
    (∀ reply : Reply,
       (AIService.init.get_smart_receipt_recommendations [] [] reply).1.calls = 1 ∧
       (AIService.init.get_smart_receipt_recommendations [] [] reply).1.promptSent =
         some (receiptPre ++ ("" ++ (receiptMid ++ (pyStrOfDict [] ++ receiptSuf))))) ∧
    (∀ reply : Reply,
       (callAiModel brandTemplate [] BrandVoiceOutput.validate reply).calls = 0 ∧
       (callAiModel brandTemplate [] BrandVoiceOutput.validate reply).result =
         .error (.inputError "campaign_texts")) :=
  ⟨fun _ => ⟨rfl, rfl⟩, fun _ => ⟨rfl, rfl⟩, fun _ => ⟨rfl, rfl⟩, fun _ => ⟨rfl, rfl⟩⟩

/-- C4 counterexample: a reply whose predicted_score is the JSON string 50 has
a field value of the wrong declared type, yet clone_brand_voice succeeds with
the coerced integer instead of failing with a validation error, so the claim
does not hold for every wrong-typed field value. -/
theorem C4_counterexample_coercible_wrong_type_accepted :
    (AIService.init.clone_brand_voice ["t"]
       ⟨"rawc4", some (.obj
         [("tone", .str "playful"),
          ("emoji_density", .num 2),
          ("cta_style", .str "urgent"),
          ("body_style", .str "short paragraphs"),
          ("predicted_score", .str "50"),
          ("new_campaign_body", .str "Buy now")])⟩).1.result =
      .ok ⟨"playful", 2, "urgent", "short paragraphs", 50, "Buy now"⟩ := rfl

/-- C4 (amended): for every model reply that parses as a JSON object on which
pydantic validation fails — a required field missing, or a field value neither
of the declared type nor coercible to it — the operation fails with a
ValidationError carrying the nonempty list of offending field names together
with the raw reply text, and no record is returned; in particular a missing
predicted_score is reported by name. -/
theorem C4_missing_or_noncoercible_field_rejected :
    (∀ (content summary : String) (fs : List (String × Json)) (names : List String),
       VibeReportOutput.validate fs = .error names →
       (AIService.init.get_vibe_report summary ⟨content, some (.obj fs)⟩).1.result =
         .error (.validationError names content) ∧ names ≠ []) ∧
    (∀ (content : String) (texts : List String) (fs : List (String × Json))
       (names : List String),
       BrandVoiceOutput.validate fs = .error names →
       (AIService.init.clone_brand_voice texts ⟨content, some (.obj fs)⟩).1.result =
         .error (.validationError names content) ∧ names ≠ []) ∧
    (∀ (content : String) (basket : List String) (patterns : List (String × String))
       (fs : List (String × Json)) (names : List String),
       SmartReceiptOutput.validate fs = .error names →
       (AIService.init.get_smart_receipt_recommendations basket patterns
          ⟨content, some (.obj fs)⟩).1.result =
         .error (.validationError names content) ∧ names ≠ []) ∧
    (∀ fs : List (String × Json), jget fs "predicted_score" = none →
       ∃ names, BrandVoiceOutput.validate fs = .error names ∧
         "predicted_score" ∈ names) := by
  refine ⟨?_, ?_, ?_, ?_⟩
  · intro content summary fs names h
    refine ⟨?_, vibe_validate_error_ne_nil fs names h⟩
    rw [get_vibe_report_result]
    simp [parseAndValidate, h]
  · intro content texts fs names h
    refine ⟨?_, brand_validate_error_ne_nil fs names h⟩
    rw [clone_brand_voice_result]
    simp [parseAndValidate, h]
  · intro content basket patterns fs names h
    refine ⟨?_, receipt_validate_error_ne_nil fs names h⟩
    rw [get_smart_receipt_result]
    simp [parseAndValidate, h]
  · intro fs h0
    have hp : fieldConv fs "predicted_score" Json.asScore = none := by
      simp [fieldConv, h0]
    unfold BrandVoiceOutput.validate
    cases e1 : fieldConv fs "tone" Json.asStr <;>
      cases e2 : fieldConv fs "emoji_density" Json.asFloat <;>
        cases e3 : fieldConv fs "cta_style" Json.asStr <;>
          cases e4 : fieldConv fs "body_style" Json.asStr <;>
            cases e6 : fieldConv fs "new_campaign_body" Json.asStr <;>
              simp only [e1, e2, e3, e4, hp, e6, errTag] <;>
                exact ⟨_, rfl, by simp⟩

/-- Witness for C4 (amended): concrete instances of all four conjuncts, each
hypothesis discharged by rfl. -/
theorem C4_failed_validation_witness :
    ((AIService.init.get_vibe_report "s" ⟨"raww1", some (.obj [])⟩).1.result =
       .error (.validationError
         ["shopping_persona", "key_behavioral_metrics",
          "key_purchase_metrics", "color_palette_hints"] "raww1") ∧
     (["shopping_persona", "key_behavioral_metrics",
       "key_purchase_metrics", "color_palette_hints"] : List String) ≠ []) ∧
    ((AIService.init.clone_brand_voice ["t"]
        ⟨"raww2", some (.obj
          [("tone", .str "playful"),
           ("emoji_density", .num 2),
           ("cta_style", .str "urgent"),
           ("body_style", .str "short paragraphs"),
           ("new_campaign_body", .str "Buy")])⟩).1.result =
       .error (.validationError ["predicted_score"] "raww2") ∧
     (["predicted_score"] : List String) ≠ []) ∧
    ((AIService.init.get_smart_receipt_recommendations ["Tea"] []
        ⟨"raww3", some (.obj [("coupons", .num 3)])⟩).1.result =
       .error (.validationError
         ["next_best_item", "loyalty_incentive_text", "coupons"] "raww3") ∧
     (["next_best_item", "loyalty_incentive_text", "coupons"] : List String) ≠ []) ∧
    (∃ names, BrandVoiceOutput.validate [("tone", .str "playful")] = .error names ∧
       "predicted_score" ∈ names) :=
  ⟨C4_missing_or_noncoercible_field_rejected.1 "raww1" "s" [] _ rfl,
   C4_missing_or_noncoercible_field_rejected.2.1 "raww2" ["t"] _ _ rfl,
   C4_missing_or_noncoercible_field_rejected.2.2.1 "raww3" ["Tea"] [] _ _ rfl,
   C4_missing_or_noncoercible_field_rejected.2.2.2 [("tone", .str "playful")] rfl⟩

/-- C5: a model reply whose content is not syntactically valid JSON makes each
of the three operations fail with the parse error carrying the raw text, and a
parse error is a distinct error class from a validation error. -/
theorem C5_invalid_json_parse_error :
    (∀ (summary content : String),
       (AIService.init.get_vibe_report summary ⟨content, none⟩).1.result =
         .error (.parseError content)) ∧
    (∀ (texts : List String) (content : String),
       (AIService.init.clone_brand_voice texts ⟨content, none⟩).1.result =
         .error (.parseError content)) ∧
    (∀ (basket : List String) (patterns : List (String × String)) (content : String),
       (AIService.init.get_smart_receipt_recommendations basket patterns
          ⟨content, none⟩).1.result = .error (.parseError content)) ∧
    (∀ content : String,
       (CallError.parseError content).isParse = true ∧
       (CallError.parseError content).isValidation = false) :=
  ⟨fun _ _ => rfl, fun _ _ => rfl, fun _ _ _ => rfl, fun _ => ⟨rfl, rfl⟩⟩

/-- C6: prompt rendering is pure textual interpolation with fixed delimiters;
clone_brand_voice substitutes the newline-joined campaign texts,
get_smart_receipt_recommendations substitutes the comma-space-joined basket
items and the default str() rendering of the patterns mapping, and
get_vibe_report substitutes the summary string verbatim, each into its fixed
template. -/
theorem C6_prompt_rendering_fixed_delimiters :
    (∀ (texts : List String) (reply : Reply),
       (AIService.init.clone_brand_voice texts reply).1.promptSent =
         some (brandPre ++ String.intercalate "\n" texts ++ brandSuf)) ∧
    (∀ (basket : List String) (patterns : List (String × String)) (reply : Reply),
       (AIService.init.get_smart_receipt_recommendations basket patterns
          reply).1.promptSent =
         some (receiptPre ++ (String.intercalate ", " basket ++
           (receiptMid ++ (pyStrOfDict patterns ++ receiptSuf))))) ∧
    (∀ (summary : String) (reply : Reply),
       (AIService.init.get_vibe_report summary reply).1.promptSent =
         some (vibePre ++ summary ++ vibeSuf)) :=
  ⟨fun _ _ => rfl, fun _ _ _ => rfl, fun _ _ => rfl⟩

/-- C7: every call to each operation makes exactly one model invocation — no
retry, caching, or batching — and returns the service state unchanged, so the
templates and the endpoint handle are read-only after construction and any two
calls are independent. -/
theorem C7_single_call_state_unchanged :
    (∀ (summary : String) (reply : Reply),
       (AIService.init.get_vibe_report summary reply).1.calls = 1 ∧
       (AIService.init.get_vibe_report summary reply).2 = AIService.init) ∧
    (∀ (texts : List String) (reply : Reply),
       (AIService.init.clone_brand_voice texts reply).1.calls = 1 ∧
       (AIService.init.clone_brand_voice texts reply).2 = AIService.init) ∧
    (∀ (basket : List String) (patterns : List (String × String)) (reply : Reply),
       (AIService.init.get_smart_receipt_recommendations basket patterns
          reply).1.calls = 1 ∧
       (AIService.init.get_smart_receipt_recommendations basket patterns
          reply).2 = AIService.init) :=
  ⟨fun _ _ => ⟨rfl, rfl⟩, fun _ _ => ⟨rfl, rfl⟩, fun _ _ _ => ⟨rfl, rfl⟩⟩

/-- C8: a reply that is a JSON object satisfying an output shape but carrying
additional fields beyond the declared ones still succeeds, returning the
record built from the declared fields only; extras are silently ignored. -/
theorem C8_extra_fields_ignored :
    (∀ (content summary : String) (fs extras : List (String × Json))
       (r : VibeReportOutput),
       (∀ p ∈ extras, p.1 ∉ vibeFields) →
       (AIService.init.get_vibe_report summary
          ⟨content, some (.obj fs)⟩).1.result = .ok r →
       (AIService.init.get_vibe_report summary
          ⟨content, some (.obj (fs ++ extras))⟩).1.result = .ok r) ∧
    (∀ (content : String) (texts : List String) (fs extras : List (String × Json))
       (r : BrandVoiceOutput),
       (∀ p ∈ extras, p.1 ∉ brandFields) →
       (AIService.init.clone_brand_voice texts
          ⟨content, some (.obj fs)⟩).1.result = .ok r →
       (AIService.init.clone_brand_voice texts
          ⟨content, some (.obj (fs ++ extras))⟩).1.result = .ok r) ∧
    (∀ (content : String) (basket : List String)
       (patterns : List (String × String)) (fs extras : List (String × Json))
       (r : SmartReceiptOutput),
       (∀ p ∈ extras, p.1 ∉ receiptFields) →
       (AIService.init.get_smart_receipt_recommendations basket patterns
          ⟨content, some (.obj fs)⟩).1.result = .ok r →
       (AIService.init.get_smart_receipt_recommendations basket patterns
          ⟨content, some (.obj (fs ++ extras))⟩).1.result = .ok r) := by
  refine ⟨?_, ?_, ?_⟩
  · intro content summary fs extras r hex hok
    rw [get_vibe_report_result] at hok ⊢
    cases hv : VibeReportOutput.validate fs with
    | ok r2 =>
      simp [parseAndValidate, hv] at hok
      simp [parseAndValidate, vibe_validate_append fs extras hex, hv, hok]
    | error names => simp [parseAndValidate, hv] at hok
  · intro content texts fs extras r hex hok
    rw [clone_brand_voice_result] at hok ⊢
    cases hv : BrandVoiceOutput.validate fs with
    | ok r2 =>
      simp [parseAndValidate, hv] at hok
      simp [parseAndValidate, brand_validate_append fs extras hex, hv, hok]
    | error names => simp [parseAndValidate, hv] at hok
  · intro content basket patterns fs extras r hex hok
    rw [get_smart_receipt_result] at hok ⊢
    cases hv : SmartReceiptOutput.validate fs with
    | ok r2 =>
      simp [parseAndValidate, hv] at hok
      simp [parseAndValidate, receipt_validate_append fs extras hex, hv, hok]
    | error names => simp [parseAndValidate, hv] at hok

/-- Witness for C8: a vibe reply with an undeclared extra field succeeds with
the record built from the declared fields only. -/
theorem C8_extra_fields_witness :
    (AIService.init.get_vibe_report "s"
       ⟨"raw8", some (.obj
         ([("shopping_persona", .str "Green Flag"),
           ("key_behavioral_metrics", .obj []),
           ("key_purchase_metrics", .obj []),
           ("color_palette_hints", .arr [.str "#FFD700"])] ++
          [("extra_field", .num 7)]))⟩).1.result =
      .ok ⟨"Green Flag", [], [], ["#FFD700"]⟩ :=
  C8_extra_fields_ignored.1 "raw8" "s"
    [("shopping_persona", .str "Green Flag"),
     ("key_behavioral_metrics", .obj []),
     ("key_purchase_metrics", .obj []),
     ("color_palette_hints", .arr [.str "#FFD700"])]
    [("extra_field", .num 7)] ⟨"Green Flag", [], [], ["#FFD700"]⟩
    (by simp [vibeFields]) rfl

/-- C9: field validation coerces rather than strictly type-checks — a reply
giving predicted_score as the JSON string 50 succeeds with the coerced integer
50, and so does a reply giving it as the fractionless JSON number 50.0 (whose
json.loads image is the integer-valued number of the model). -/
theorem C9_lossless_coercion_accepted :
    ((AIService.init.clone_brand_voice ["t"]
        ⟨"raw9a", some (.obj
          [("tone", .str "playful"),
           ("emoji_density", .num 2),
           ("cta_style", .str "urgent"),
           ("body_style", .str "short paragraphs"),
           ("predicted_score", .str "50"),
           ("new_campaign_body", .str "B")])⟩).1.result =
       .ok ⟨"playful", 2, "urgent", "short paragraphs", 50, "B"⟩) ∧
    ((AIService.init.clone_brand_voice ["t"]
        ⟨"raw9b", some (.obj
          [("tone", .str "playful"),
           ("emoji_density", .num 2),
           ("cta_style", .str "urgent"),
           ("body_style", .str "short paragraphs"),
           ("predicted_score", .num ((50 : Int) : Rat)),
           ("new_campaign_body", .str "B")])⟩).1.result =
       .ok ⟨"playful", 2, "urgent", "short paragraphs", 50, "B"⟩) := ⟨rfl, rfl⟩

/-- C10: a reply that is syntactically valid JSON but not a JSON object makes
each operation fail with the TypeError of applying the record constructor to a
non-mapping value — an error class distinct from the input, parse, and
validation errors of the taxonomy. -/
theorem C10_non_object_json_type_error :
    (∀ (summary content : String) (b : Bool) (q : Rat) (s : String)
       (xs : List Json),
       (AIService.init.get_vibe_report summary
          ⟨content, some .null⟩).1.result = .error (.typeError content) ∧
       (AIService.init.get_vibe_report summary
          ⟨content, some (.bool b)⟩).1.result = .error (.typeError content) ∧
       (AIService.init.get_vibe_report summary
          ⟨content, some (.num q)⟩).1.result = .error (.typeError content) ∧
       (AIService.init.get_vibe_report summary
          ⟨content, some (.str s)⟩).1.result = .error (.typeError content) ∧
       (AIService.init.get_vibe_report summary
          ⟨content, some (.arr xs)⟩).1.result = .error (.typeError content)) ∧
    (∀ (texts : List String) (content : String) (b : Bool) (q : Rat) (s : String)
       (xs : List Json),
       (AIService.init.clone_brand_voice texts
          ⟨content, some .null⟩).1.result = .error (.typeError content) ∧
       (AIService.init.clone_brand_voice texts
          ⟨content, some (.bool b)⟩).1.result = .error (.typeError content) ∧
       (AIService.init.clone_brand_voice texts
          ⟨content, some (.num q)⟩).1.result = .error (.typeError content) ∧
       (AIService.init.clone_brand_voice texts
          ⟨content, some (.str s)⟩).1.result = .error (.typeError content) ∧
       (AIService.init.clone_brand_voice texts
          ⟨content, some (.arr xs)⟩).1.result = .error (.typeError content)) ∧
    (∀ (basket : List String) (patterns : List (String × String))
       (content : String) (b : Bool) (q : Rat) (s : String) (xs : List Json),
       (AIService.init.get_smart_receipt_recommendations basket patterns
          ⟨content, some .null⟩).1.result = .error (.typeError content) ∧
       (AIService.init.get_smart_receipt_recommendations basket patterns
          ⟨content, some (.bool b)⟩).1.result = .error (.typeError content) ∧
       (AIService.init.get_smart_receipt_recommendations basket patterns
          ⟨content, some (.num q)⟩).1.result = .error (.typeError content) ∧
       (AIService.init.get_smart_receipt_recommendations basket patterns
          ⟨content, some (.str s)⟩).1.result = .error (.typeError content) ∧
       (AIService.init.get_smart_receipt_recommendations basket patterns
          ⟨content, some (.arr xs)⟩).1.result = .error (.typeError content)) ∧
    (∀ content : String,
       (CallError.typeError content).isType = true ∧
       (CallError.typeError content).isParse = false ∧
       (CallError.typeError content).isValidation = false ∧
       (CallError.typeError content).isInput = false) :=
  ⟨fun _ _ _ _ _ _ => ⟨rfl, rfl, rfl, rfl, rfl⟩,
   fun _ _ _ _ _ _ => ⟨rfl, rfl, rfl, rfl, rfl⟩,
   fun _ _ _ _ _ _ _ => ⟨rfl, rfl, rfl, rfl, rfl⟩,
   fun _ => ⟨rfl, rfl, rfl, rfl⟩⟩

end OpticPulse
